import Mathlib

/-!
Verification of the ADGM Corporate Agent front-end components.

The definitions below are a shallow embedding of the React components in
`project/src/components`: `DocumentUploader.tsx` (file upload and the mock
document analysis), `ComplianceAnalyzer.tsx` (the fixed compliance-rule table
and its search/category filter) and `RAGSystem.tsx` (knowledge sources and
reindexing).  JavaScript strings are modelled through their character lists;
`String.prototype.toLowerCase`, `endsWith` and `includes` are modelled by
structurally recursive functions on `List Char`.

The confidence scorer does not appear in these components (the repository's
README attributes it to the Python backend, which is not part of the source
tree); it is modelled from the specification, as marked in the doc comments.
-/

/-- Severity labels used by `DocumentAnalysis.issues_found` and by
`ComplianceRule.severity` (the union type `'High' | 'Medium' | 'Low'`). -/
inductive Severity where
  | High
  | Medium
  | Low
deriving DecidableEq

/-- One entry of `issues_found` in the `DocumentAnalysis` interface of
`DocumentUploader.tsx`.  The source field `section` is a reserved word in
Lean and is rendered `section_`. -/
structure Issue where
  document : String
  section_ : String
  issue : String
  severity : Severity
  suggestion : String
deriving DecidableEq

/-- The `DocumentAnalysis` interface of `DocumentUploader.tsx`. -/
structure DocumentAnalysis where
  process : String
  documents_uploaded : Nat
  required_documents : Nat
  missing_documents : List String
  issues_found : List Issue
deriving DecidableEq

/-- A file as the uploader component sees it: only `name` is consulted by the
code.  Modelled from the spec: the extra `declaredType` field is the spec's
`Document.declaredType` (the inferred document-type label); the uploader
component itself never computes document types, and the type-inference code
lives outside the source tree. -/
structure UploadedFile where
  name : String
  declaredType : String
deriving DecidableEq

/-- The document-type labels of a batch of uploaded files. -/
def uploadedTypes (files : List UploadedFile) : List String :=
  files.map (fun f => f.declaredType)

/-- Model of `String.prototype.toLowerCase` (lower-casing each character),
as used in `handleFileUpload` and `filteredRules`. -/
def strToLower (s : String) : String :=
  String.mk (s.data.map Char.toLower)

/-- Holds when the first character list starts the second (the
character-list view of one string starting with another). -/
def leadsChars : List Char → List Char → Bool
  | [], _ => true
  | _ :: _, [] => false
  | a :: as, b :: bs => a == b && leadsChars as bs

/-- Model of `String.prototype.endsWith`: the reversed suffix starts the
reversed string. -/
def strEndsWith (s post : String) : Bool :=
  leadsChars post.data.reverse s.data.reverse

/-- Holds when the first character list occurs contiguously inside the
second. -/
def occursIn : List Char → List Char → Bool
  | needle, [] => leadsChars needle []
  | needle, c :: rest => leadsChars needle (c :: rest) || occursIn needle rest

/-- Model of `String.prototype.includes`: `jsIncludes s t` holds when `t`
occurs inside `s`. -/
def jsIncludes (s t : String) : Bool :=
  occursIn t.data s.data

/-- The `handleFileUpload` handler from `DocumentUploader.tsx`: the selected files are
filtered to those whose lower-cased name ends in `.docx`; if any file was
dropped by the filter the stored list is left unchanged (the code alerts and
returns), otherwise the stored list becomes the filtered list. -/
def handleFileUpload (files uploadedFiles : List UploadedFile) : List UploadedFile :=
  let docxFiles := uploadedFiles.filter (fun f => strEndsWith (strToLower f.name) ".docx")
  if docxFiles.length ≠ uploadedFiles.length then files else docxFiles

/-- The fixed issue list of the `mockAnalysis` object in `analyzeDocuments`. -/
def mockIssues : List Issue :=
  [ { document := "Articles of Association"
      section_ := "Clause 3.1"
      issue := "Jurisdiction clause does not specify ADGM"
      severity := Severity.High
      suggestion := "Update jurisdiction to ADGM Courts per ADGM Companies Regulations 2020, Art. 6" },
    { document := "Memorandum of Association"
      section_ := "Section 2.3"
      issue := "Missing UBO declaration reference"
      severity := Severity.Medium
      suggestion := "Include reference to UBO Declaration Form as required by ADGM AML regulations" } ]

/-- The `mockAnalysis` object built inside `analyzeDocuments` in
`DocumentUploader.tsx`, as a function of the stored file list. -/
def mockAnalysis (files : List UploadedFile) : DocumentAnalysis :=
  { process := "Company Incorporation"
    documents_uploaded := files.length
    required_documents := 5
    missing_documents :=
      if files.length < 5 then ["Register of Members and Directors"] else []
    issues_found := mockIssues }

/-- The analysis produced by `analyzeDocuments` for a given file list:
`none` when the file list is empty (the function returns early), otherwise
the mock analysis. -/
def analyzeDocumentsRun (files : List UploadedFile) : Option DocumentAnalysis :=
  if files.length = 0 then none else some (mockAnalysis files)

/-- The relevant state of the `DocumentUploader` component: the stored file
list, the `isAnalyzing` flag and the stored analysis result. -/
structure UploaderState where
  files : List UploadedFile
  isAnalyzing : Bool
  analysis : Option DocumentAnalysis
deriving DecidableEq

/-- The `analyzeDocuments` handler from `DocumentUploader.tsx`, run to completion
(including the timeout body): returns the new component state together with
the list of `onAnalysisComplete` callback invocations.  On an empty file
list the function returns early: the state is unchanged and no callback
fires. -/
def analyzeDocuments (s : UploaderState) : UploaderState × List DocumentAnalysis :=
  match analyzeDocumentsRun s.files with
  | none => (s, [])
  | some a => ({ s with isAnalyzing := false, analysis := some a }, [a])

/-- The `documents` names of the "Company Incorporation" checklist in
`ADGMChecklists` (`ADGM_CHECKLISTS[0]`). -/
def requiredChecklist : List String :=
  [ "Articles of Association (AoA)",
    "Memorandum of Association (MoA)",
    "Incorporation Application Form",
    "UBO Declaration Form",
    "Register of Members and Directors" ]

/-- Follows the spec sentence, for comparison with the code: the missing
documents are `requiredChecklist − uploadedTypes`, preserving checklist
order. -/
def specMissingDocuments (types : List String) : List String :=
  requiredChecklist.filter (fun t => decide (¬ t ∈ types))

/-- The `ComplianceRule` interface of `ComplianceAnalyzer.tsx`. -/
structure ComplianceRule where
  id : String
  category : String
  rule : String
  description : String
  severity : Severity
  reference : String
deriving DecidableEq

/-- The fixed `ADGM_COMPLIANCE_RULES` table of `ComplianceAnalyzer.tsx`. -/
def ADGM_COMPLIANCE_RULES : List ComplianceRule :=
  [ { id := "COMP-001"
      category := "Jurisdiction"
      rule := "ADGM Court Jurisdiction"
      description := "All legal documents must specify ADGM Courts as the governing jurisdiction"
      severity := Severity.High
      reference := "ADGM Companies Regulations 2020, Article 6" },
    { id := "COMP-002"
      category := "Corporate Governance"
      rule := "Director Minimum Requirements"
      description := "At least one director must be a natural person"
      severity := Severity.High
      reference := "ADGM Companies Regulations 2020, Article 155" },
    { id := "COMP-003"
      category := "AML/CFT"
      rule := "UBO Declaration"
      description := "Ultimate Beneficial Ownership must be declared for all entities"
      severity := Severity.High
      reference := "ADGM AML Rules 2019, Rule 3.2" },
    { id := "COMP-004"
      category := "Share Capital"
      rule := "Minimum Share Capital"
      description := "Companies must maintain minimum authorized share capital as per license type"
      severity := Severity.Medium
      reference := "ADGM Companies Regulations 2020, Article 64" },
    { id := "COMP-005"
      category := "Registered Office"
      rule := "ADGM Registered Address"
      description := "Companies must maintain a registered office address within ADGM"
      severity := Severity.High
      reference := "ADGM Companies Regulations 2020, Article 29" },
    { id := "COMP-006"
      category := "Financial Services"
      rule := "FSRA Authorization"
      description := "Financial services activities require FSRA authorization"
      severity := Severity.High
      reference := "ADGM FSMR 2015, Article 9" } ]

/-- The filter predicate of `filteredRules` in `ComplianceAnalyzer.tsx`:
category matches (or the selection is `All`) and the rule name or the
description contains the search term, both sides lower-cased. -/
def matchesFilter (selectedCategory searchTerm : String) (r : ComplianceRule) : Bool :=
  (decide (selectedCategory = "All") || decide (r.category = selectedCategory)) &&
    (jsIncludes (strToLower r.rule) (strToLower searchTerm) ||
      jsIncludes (strToLower r.description) (strToLower searchTerm))

/-- The `filteredRules` computation from `ComplianceAnalyzer.tsx`. -/
def filteredRules (selectedCategory searchTerm : String) : List ComplianceRule :=
  ADGM_COMPLIANCE_RULES.filter (matchesFilter selectedCategory searchTerm)

/-- The `type` union of the `KnowledgeSource` interface in `RAGSystem.tsx`. -/
inductive SourceType where
  | regulation
  | guideline
  | form
  | template
deriving DecidableEq

/-- The `status` union of the `KnowledgeSource` interface in `RAGSystem.tsx`. -/
inductive SourceStatus where
  | active
  | indexed
  | error
deriving DecidableEq

/-- The `KnowledgeSource` interface of `RAGSystem.tsx`. -/
structure KnowledgeSource where
  id : String
  title : String
  type : SourceType
  url : String
  lastUpdated : String
  description : String
  status : SourceStatus
deriving DecidableEq

/-- The `handleReindex` handler from `RAGSystem.tsx`, run to completion: every stored
source is replaced by a copy with `status` set to `indexed` and
`lastUpdated` set to the current date string. -/
def handleReindex (today : String) (sources : List KnowledgeSource) : List KnowledgeSource :=
  sources.map (fun s => { s with status := SourceStatus.indexed, lastUpdated := today })

/- ## Claim theorems -/

/-- C7: when the uploaded file list is empty, `analyzeDocuments` aborts with
no report: the component state (including the stored analysis) is unchanged
and the `onAnalysisComplete` callback never fires. -/
theorem analyzeDocuments_empty_aborts (s : UploaderState) (h : s.files = []) :
    analyzeDocuments s = (s, []) := by
  simp [analyzeDocuments, analyzeDocumentsRun, h]

theorem analyzeDocuments_empty_aborts_witness :
    analyzeDocuments ⟨[], false, none⟩ = (⟨[], false, none⟩, []) :=
  analyzeDocuments_empty_aborts ⟨[], false, none⟩ rfl

/-- C8: file-upload acceptance is all-or-nothing: if every selected file
name ends in `.docx` case-insensitively the stored list becomes exactly the
selected files in their given order, and otherwise the stored list is left
unchanged. -/
theorem handleFileUpload_all_or_nothing (files uploadedFiles : List UploadedFile) :
    handleFileUpload files uploadedFiles =
      if uploadedFiles.all (fun f => strEndsWith (strToLower f.name) ".docx") then
        uploadedFiles
      else files := by
  by_cases h : uploadedFiles.all (fun f => strEndsWith (strToLower f.name) ".docx") = true
  · rw [if_pos h]
    have hall : ∀ f ∈ uploadedFiles, strEndsWith (strToLower f.name) ".docx" = true :=
      List.all_eq_true.mp h
    unfold handleFileUpload
    rw [List.filter_eq_self.mpr hall]
    simp
  · rw [if_neg h]
    have hex : ¬ ∀ f ∈ uploadedFiles, strEndsWith (strToLower f.name) ".docx" = true := by
      intro hc
      exact h (List.all_eq_true.mpr hc)
    unfold handleFileUpload
    have hlt : (uploadedFiles.filter (fun f => strEndsWith (strToLower f.name) ".docx")).length ≠
        uploadedFiles.length := by
      intro heq
      exact hex (List.filter_length_eq_length.mp heq)
    rw [if_pos hlt]

/-- C10: reindexing modifies only `status` and `lastUpdated`: the result has
the same length as the input, and pointwise the `id`, `title`, `type`, `url`
and `description` fields are unchanged while `status` becomes `indexed` and
`lastUpdated` becomes the supplied date. -/
theorem handleReindex_frame (today : String) (sources : List KnowledgeSource) :
    List.Forall₂
      (fun s s' => s'.id = s.id ∧ s'.title = s.title ∧ s'.type = s.type ∧
        s'.url = s.url ∧ s'.description = s.description ∧
        s'.status = SourceStatus.indexed ∧ s'.lastUpdated = today)
      sources (handleReindex today sources) := by
  induction sources with
  | nil => exact List.Forall₂.nil
  | cons s rest ih =>
      exact List.Forall₂.cons ⟨rfl, rfl, rfl, rfl, rfl, rfl, rfl⟩ ih

/-- C1 counterexample: a single uploaded file typed "Articles of Association
(AoA)" yields `missing_documents = ["Register of Members and Directors"]`,
which is not the checklist minus the uploaded types (that difference has
four entries). -/
theorem analyzeDocuments_missing_ne_spec_diff :
    (analyzeDocumentsRun [⟨"articles.docx", "Articles of Association (AoA)"⟩]).map
        (fun a => a.missing_documents) = some ["Register of Members and Directors"] ∧
    (analyzeDocumentsRun [⟨"articles.docx", "Articles of Association (AoA)"⟩]).map
        (fun a => a.missing_documents) ≠
      some (specMissingDocuments
        (uploadedTypes [⟨"articles.docx", "Articles of Association (AoA)"⟩])) := by
  constructor <;> decide

/-- C1 (amended): the produced `missing_documents` depends only on the number
of uploaded documents: it is `["Register of Members and Directors"]` when
fewer than five documents are uploaded and empty otherwise; it is not the
checklist-minus-uploaded-types difference. -/
theorem analyzeDocuments_missing_count_based (files : List UploadedFile)
    (a : DocumentAnalysis) (h : analyzeDocumentsRun files = some a) :
    a.missing_documents =
      if files.length < 5 then ["Register of Members and Directors"] else [] := by
  by_cases h0 : files.length = 0
  · simp [analyzeDocumentsRun, h0] at h
  · simp [analyzeDocumentsRun, h0] at h
    subst h
    rfl

theorem analyzeDocuments_missing_count_based_witness :
    (mockAnalysis [⟨"a.docx", "Articles of Association (AoA)"⟩]).missing_documents =
      if ([⟨"a.docx", "Articles of Association (AoA)"⟩] : List UploadedFile).length < 5 then
        ["Register of Members and Directors"]
      else [] :=
  analyzeDocuments_missing_count_based [⟨"a.docx", "Articles of Association (AoA)"⟩] _ rfl

/-- C2: a batch of exactly four incorporation documents, none of them the
"Register of Members and Directors", produces an analysis with
`documents_uploaded = 4`, `required_documents = 5` and
`missing_documents = ["Register of Members and Directors"]`. -/
theorem analyzeDocuments_four_of_five (files : List UploadedFile) (a : DocumentAnalysis)
    (hlen : files.length = 4)
    (htypes : ∀ f ∈ files, f.declaredType ∈ requiredChecklist)
    (hnodup : (uploadedTypes files).Nodup)
    (hreg : ¬ "Register of Members and Directors" ∈ uploadedTypes files)
    (hrun : analyzeDocumentsRun files = some a) :
    a.documents_uploaded = 4 ∧ a.required_documents = 5 ∧
      a.missing_documents = ["Register of Members and Directors"] := by
  have h0 : files.length ≠ 0 := by omega
  simp [analyzeDocumentsRun, h0] at hrun
  subst hrun
  refine ⟨hlen, rfl, ?_⟩
  simp [mockAnalysis, hlen]

theorem analyzeDocuments_four_of_five_witness :
    (mockAnalysis
        [⟨"aoa.docx", "Articles of Association (AoA)"⟩,
         ⟨"moa.docx", "Memorandum of Association (MoA)"⟩,
         ⟨"form.docx", "Incorporation Application Form"⟩,
         ⟨"ubo.docx", "UBO Declaration Form"⟩]).documents_uploaded = 4 ∧
    (mockAnalysis
        [⟨"aoa.docx", "Articles of Association (AoA)"⟩,
         ⟨"moa.docx", "Memorandum of Association (MoA)"⟩,
         ⟨"form.docx", "Incorporation Application Form"⟩,
         ⟨"ubo.docx", "UBO Declaration Form"⟩]).required_documents = 5 ∧
    (mockAnalysis
        [⟨"aoa.docx", "Articles of Association (AoA)"⟩,
         ⟨"moa.docx", "Memorandum of Association (MoA)"⟩,
         ⟨"form.docx", "Incorporation Application Form"⟩,
         ⟨"ubo.docx", "UBO Declaration Form"⟩]).missing_documents =
      ["Register of Members and Directors"] :=
  analyzeDocuments_four_of_five
    [⟨"aoa.docx", "Articles of Association (AoA)"⟩,
     ⟨"moa.docx", "Memorandum of Association (MoA)"⟩,
     ⟨"form.docx", "Incorporation Application Form"⟩,
     ⟨"ubo.docx", "UBO Declaration Form"⟩] _
    rfl (by decide) (by decide) (by decide) rfl

/-- C3 counterexample: uploading a single file typed "Register of Members
and Directors" yields a `missing_documents` list that contains that very
uploaded type. -/
theorem analyzeDocuments_missing_contains_uploaded_type :
    (analyzeDocumentsRun [⟨"register.docx", "Register of Members and Directors"⟩]).map
        (fun a => a.missing_documents) = some ["Register of Members and Directors"] ∧
    "Register of Members and Directors" ∈
      uploadedTypes [⟨"register.docx", "Register of Members and Directors"⟩] := by
  constructor <;> decide

/-- C3 (amended): provided at least five documents are uploaded, the
`missing_documents` list (then empty) is disjoint from the uploaded
document types; with fewer than five it can contain an uploaded type. -/
theorem analyzeDocuments_missing_disjoint_when_complete (files : List UploadedFile)
    (a : DocumentAnalysis) (h5 : 5 ≤ files.length)
    (hrun : analyzeDocumentsRun files = some a) :
    List.Disjoint a.missing_documents (uploadedTypes files) := by
  have h0 : files.length ≠ 0 := by omega
  simp [analyzeDocumentsRun, h0] at hrun
  subst hrun
  have h5' : ¬ files.length < 5 := by omega
  intro t ht
  simp [mockAnalysis, h5'] at ht

theorem analyzeDocuments_missing_disjoint_when_complete_witness :
    List.Disjoint
      (mockAnalysis
        [⟨"aoa.docx", "Articles of Association (AoA)"⟩,
         ⟨"moa.docx", "Memorandum of Association (MoA)"⟩,
         ⟨"form.docx", "Incorporation Application Form"⟩,
         ⟨"ubo.docx", "UBO Declaration Form"⟩,
         ⟨"register.docx", "Register of Members and Directors"⟩]).missing_documents
      (uploadedTypes
        [⟨"aoa.docx", "Articles of Association (AoA)"⟩,
         ⟨"moa.docx", "Memorandum of Association (MoA)"⟩,
         ⟨"form.docx", "Incorporation Application Form"⟩,
         ⟨"ubo.docx", "UBO Declaration Form"⟩,
         ⟨"register.docx", "Register of Members and Directors"⟩]) :=
  analyzeDocuments_missing_disjoint_when_complete
    [⟨"aoa.docx", "Articles of Association (AoA)"⟩,
     ⟨"moa.docx", "Memorandum of Association (MoA)"⟩,
     ⟨"form.docx", "Incorporation Application Form"⟩,
     ⟨"ubo.docx", "UBO Declaration Form"⟩,
     ⟨"register.docx", "Register of Members and Directors"⟩] _
    (by decide) rfl

/-- C6: running the analysis twice on the same unchanged uploaded file list
yields identical issue lists, whatever the rest of the component state is
(all produced issues are the deterministic structural mock issues). -/
theorem analyzeDocuments_issues_deterministic (s₁ s₂ : UploaderState)
    (h : s₁.files = s₂.files) :
    (analyzeDocuments s₁).2.map (fun a => a.issues_found) =
      (analyzeDocuments s₂).2.map (fun a => a.issues_found) := by
  unfold analyzeDocuments
  rw [h]
  cases hh : analyzeDocumentsRun s₂.files with
  | none => simp [hh]
  | some a => simp [hh]

theorem analyzeDocuments_issues_deterministic_witness :
    (analyzeDocuments ⟨[⟨"a.docx", "Articles of Association (AoA)"⟩], true, none⟩).2.map
        (fun a => a.issues_found) =
      (analyzeDocuments ⟨[⟨"a.docx", "Articles of Association (AoA)"⟩], false, none⟩).2.map
        (fun a => a.issues_found) :=
  analyzeDocuments_issues_deterministic _ _ rfl

/-- Modelled from the spec: the Confidence Scorer input.  The scorer itself
is in the Python backend, which is absent from the source tree; only its
output shape is documented in the README.  Fields: checklist counts
(`uploaded`, `required`), issue counts by severity (`high`, `medium`,
`low`), rule coverage (`evaluatedRules`, `applicableRules`) and the
batch-size-scaled normalization cap `cap`. -/
structure ScorerInput where
  uploaded : Nat
  required : Nat
  high : Nat
  medium : Nat
  low : Nat
  evaluatedRules : Nat
  applicableRules : Nat
  cap : ℚ
deriving DecidableEq

/-- Modelled from the spec: a completeness or coverage ratio `a / b`, taken
to be 1 when the denominator is zero (nothing required or applicable). -/
def ratioOf (a b : Nat) : ℚ :=
  if b = 0 then 1 else (a : ℚ) / (b : ℚ)

/-- Modelled from the spec: the weighted issue count, High weight 3, Medium
weight 2, Low weight 1. -/
def severityLoad (i : ScorerInput) : ℚ :=
  3 * (i.high : ℚ) + 2 * (i.medium : ℚ) + (i.low : ℚ)

/-- Modelled from the spec: the weighted issue count normalized against the
batch-size-scaled cap, saturating at 1; a non-positive cap counts as fully
loaded. -/
def normalizedLoad (i : ScorerInput) : ℚ :=
  if i.cap ≤ 0 then 1 else min 1 (severityLoad i / i.cap)

/-- Modelled from the spec: the weighted combination of checklist
completeness, inverse severity load and rule coverage, with configured
weights `wa`, `wb`, `wc`. -/
def rawScore (wa wb wc : ℚ) (i : ScorerInput) : ℚ :=
  wa * ratioOf i.uploaded i.required + wb * (1 - normalizedLoad i) +
    wc * ratioOf i.evaluatedRules i.applicableRules

/-- Clamp a rational to the unit interval. -/
def clamp01 (x : ℚ) : ℚ :=
  max 0 (min 1 x)

/-- Round a rational to two decimal places. -/
def round2 (x : ℚ) : ℚ :=
  ((round (100 * x) : ℤ) : ℚ) / 100

/-- Modelled from the spec: the reported confidence score — the raw weighted
score clamped to the unit interval and rounded to two decimals. -/
def confidenceScore (wa wb wc : ℚ) (i : ScorerInput) : ℚ :=
  round2 (clamp01 (rawScore wa wb wc i))

theorem round_mono_q {x y : ℚ} (h : x ≤ y) : round x ≤ round y := by
  rw [round_eq, round_eq]
  exact Int.floor_le_floor (by linarith)

theorem round2_mono {x y : ℚ} (h : x ≤ y) : round2 x ≤ round2 y := by
  unfold round2
  have h1 : round (100 * x) ≤ round (100 * y) := round_mono_q (by linarith)
  have h2 : ((round (100 * x) : ℤ) : ℚ) ≤ ((round (100 * y) : ℤ) : ℚ) := by
    exact_mod_cast h1
  exact (div_le_div_iff_of_pos_right (by norm_num)).mpr h2

theorem clamp01_mono {x y : ℚ} (h : x ≤ y) : clamp01 x ≤ clamp01 y :=
  max_le_max le_rfl (min_le_min le_rfl h)

theorem clamp01_nonneg (x : ℚ) : 0 ≤ clamp01 x :=
  le_max_left 0 _

theorem clamp01_le_one (x : ℚ) : clamp01 x ≤ 1 :=
  max_le (by norm_num) (min_le_left 1 x)

theorem round2_nonneg {x : ℚ} (h : 0 ≤ x) : 0 ≤ round2 x := by
  have h1 : round ((0 : ℚ)) ≤ round (100 * x) := round_mono_q (by linarith)
  rw [round_zero] at h1
  have h2 : (0 : ℚ) ≤ ((round (100 * x) : ℤ) : ℚ) := by exact_mod_cast h1
  exact div_nonneg h2 (by norm_num)

theorem round2_le_one {x : ℚ} (h : x ≤ 1) : round2 x ≤ 1 := by
  have h1 : round (100 * x) ≤ round ((100 : ℚ)) := round_mono_q (by linarith)
  have h2 : round ((100 : ℚ)) = 100 := by
    have hc : ((100 : ℤ) : ℚ) = (100 : ℚ) := by norm_num
    rw [← hc, round_intCast]
  rw [h2] at h1
  unfold round2
  rw [div_le_one (by norm_num)]
  exact_mod_cast h1

theorem round2_hundredth (x : ℚ) : (100 * round2 x).den = 1 := by
  unfold round2
  have h : (100 : ℚ) * (((round (100 * x) : ℤ) : ℚ) / 100) =
      ((round (100 * x) : ℤ) : ℚ) := by ring
  rw [h]
  exact Rat.den_intCast _

/-- C5: for every weight configuration and scorer input, the reported
confidence score lies in the unit interval and is an integer multiple of one
hundredth (two-decimal rounding). -/
theorem confidenceScore_unit_interval (wa wb wc : ℚ) (i : ScorerInput) :
    0 ≤ confidenceScore wa wb wc i ∧ confidenceScore wa wb wc i ≤ 1 ∧
      (100 * confidenceScore wa wb wc i).den = 1 := by
  refine ⟨?_, ?_, round2_hundredth _⟩
  · exact round2_nonneg (clamp01_nonneg _)
  · exact round2_le_one (clamp01_le_one _)

/-- C4 counterexample: with equal weights and cap 1, raising the
High-severity issue count from 1 to 2 (all other inputs fixed) leaves the
confidence score unchanged — the severity term is already saturated — so the
score does not strictly decrease. -/
theorem confidenceScore_not_strictly_decreasing :
    (⟨4, 5, 2, 0, 0, 3, 3, 1⟩ : ScorerInput).high =
      (⟨4, 5, 1, 0, 0, 3, 3, 1⟩ : ScorerInput).high + 1 ∧
    confidenceScore (1/3) (1/3) (1/3) ⟨4, 5, 2, 0, 0, 3, 3, 1⟩ =
      confidenceScore (1/3) (1/3) (1/3) ⟨4, 5, 1, 0, 0, 3, 3, 1⟩ := by
  constructor
  · rfl
  · unfold confidenceScore
    have h : rawScore (1/3) (1/3) (1/3) ⟨4, 5, 2, 0, 0, 3, 3, 1⟩ =
        rawScore (1/3) (1/3) (1/3) ⟨4, 5, 1, 0, 0, 3, 3, 1⟩ := by
      norm_num [rawScore, ratioOf, severityLoad, normalizedLoad, min_def]
    rw [h]

/-- C4 (amended): with a nonnegative severity weight, the confidence score
is monotonically non-increasing in the High-severity issue count, holding
every other input fixed; it is not strictly decreasing in general (the
severity term saturates at the cap and the final score is clamped and
rounded). -/
theorem confidenceScore_nonincreasing_in_high (wa wb wc : ℚ)
    (u r m l e ap h₁ h₂ : Nat) (cap : ℚ) (hwb : 0 ≤ wb) (hh : h₁ ≤ h₂) :
    confidenceScore wa wb wc ⟨u, r, h₂, m, l, e, ap, cap⟩ ≤
      confidenceScore wa wb wc ⟨u, r, h₁, m, l, e, ap, cap⟩ := by
  apply round2_mono
  apply clamp01_mono
  have hcast : (h₁ : ℚ) ≤ (h₂ : ℚ) := by exact_mod_cast hh
  have hload : severityLoad ⟨u, r, h₁, m, l, e, ap, cap⟩ ≤
      severityLoad ⟨u, r, h₂, m, l, e, ap, cap⟩ := by
    simp only [severityLoad]
    linarith
  have hnl : normalizedLoad ⟨u, r, h₁, m, l, e, ap, cap⟩ ≤
      normalizedLoad ⟨u, r, h₂, m, l, e, ap, cap⟩ := by
    simp only [normalizedLoad]
    by_cases hc : cap ≤ 0
    · simp [hc]
    · simp only [if_neg hc]
      refine min_le_min le_rfl ?_
      exact (div_le_div_iff_of_pos_right (lt_of_not_le hc)).mpr hload
  simp only [rawScore]
  have hterm := mul_le_mul_of_nonneg_left (sub_le_sub_left hnl 1) hwb
  simp only [ratioOf]
  linarith

theorem confidenceScore_nonincreasing_in_high_witness :
    confidenceScore (1/3) (1/3) (1/3) ⟨4, 5, 2, 0, 0, 3, 3, 10⟩ ≤
      confidenceScore (1/3) (1/3) (1/3) ⟨4, 5, 1, 0, 0, 3, 3, 10⟩ :=
  confidenceScore_nonincreasing_in_high (1/3) (1/3) (1/3) 4 5 0 0 3 3 1 2 10
    (by norm_num) (by norm_num)

theorem occursIn_nil_left (l : List Char) : occursIn [] l = true := by
  cases l <;> simp [occursIn, leadsChars]

/-- C9: for every selected category and search term, the displayed rules are
exactly the rules of the fixed table whose category equals the selection (or
the selection is `All`) and whose name or description contains the
lower-cased search term, in the table's original order; with category `All`
and an empty search term all six rules are displayed. -/
theorem filteredRules_characterization (selectedCategory searchTerm : String) :
    (filteredRules selectedCategory searchTerm).Sublist ADGM_COMPLIANCE_RULES ∧
    (∀ r : ComplianceRule, r ∈ filteredRules selectedCategory searchTerm ↔
      (r ∈ ADGM_COMPLIANCE_RULES ∧
        (selectedCategory = "All" ∨ r.category = selectedCategory) ∧
        (jsIncludes (strToLower r.rule) (strToLower searchTerm) = true ∨
          jsIncludes (strToLower r.description) (strToLower searchTerm) = true))) ∧
    filteredRules ("All") ("") = ADGM_COMPLIANCE_RULES ∧
    ADGM_COMPLIANCE_RULES.length = 6 := by
  refine ⟨List.filter_sublist _, ?_, ?_, rfl⟩
  · intro r
    simp [filteredRules, matchesFilter, List.mem_filter, Bool.and_eq_true, Bool.or_eq_true,
      decide_eq_true_eq]
  · apply List.filter_eq_self.mpr
    intro r _
    simp [matchesFilter, jsIncludes, strToLower, occursIn_nil_left]
